import Mathlib

/-!
Shallow embedding of `Shared/InlineNullValues.h` from omniscidb: the inline
null-sentinel computation for encoded column types, together with theorems
settling the specification's claims about it.

Conventions of the embedding:

* `CRes α` is the outcome of one call: `ok v` is a normally returned value,
  `fatal` is a failed `CHECK` / `CHECK_EQ` or a reached `abort()` (both halt
  the process), and `undef` marks a C++ left shift whose shift amount is
  outside `[0, 64)` — undefined behaviour, reachable only on the
  fixed-bitwidth encoding path.
* 64-bit signed arithmetic is modelled on `Int`, wrapped into
  `[-2^63, 2^63)` by `toInt64` (two's-complement wrap-around semantics,
  which is what every supported target exhibits for the `-(1L << 63)`
  computation).
* The C++ `%` on `int` truncates toward zero, which is `Int.tmod`.
-/

/-- The logical SQL type tags of the engine's `SQLTypes` enum (the scalar
subset relevant to `InlineNullValues.h`). -/
inductive SQLTypes where
  | kNULLT
  | kBOOLEAN
  | kCHAR
  | kVARCHAR
  | kNUMERIC
  | kDECIMAL
  | kINT
  | kSMALLINT
  | kFLOAT
  | kDOUBLE
  | kTIME
  | kTIMESTAMP
  | kBIGINT
  | kTEXT
  | kDATE
  | kINTERVAL_DAY_TIME
  | kINTERVAL_YEAR_MONTH
  | kTINYINT
  deriving DecidableEq, Repr

/-- The compression schemes of the engine's `EncodingType` enum. -/
inductive EncodingType where
  | kENCODING_NONE
  | kENCODING_FIXED
  | kENCODING_RL
  | kENCODING_DIFF
  | kENCODING_DICT
  | kENCODING_SPARSE
  | kENCODING_GEOINT
  | kENCODING_DATE_IN_DAYS
  deriving DecidableEq, Repr

/-- Modelled from the spec: the read-only type-descriptor collaborator (the
`SQL_TYPE_INFO` template parameter; the engine's `SQLTypeInfo` is not under
`src/`).  It exposes exactly the fields the functions of
`InlineNullValues.h` read: logical type (`get_type`), compression scheme
(`get_compression`), compression parameter (`get_comp_param`), physical
storage size in bytes (`get_size`) and logical size in bytes
(`get_logical_size`). -/
structure SQLTypeInfo where
  type : SQLTypes
  compression : EncodingType
  comp_param : Int
  size : Int
  logical_size : Int
  deriving DecidableEq, Repr

/-- Modelled from the spec: the descriptor's `is_string` classification
predicate (string logical types are `kCHAR`, `kVARCHAR`, `kTEXT`). -/
def SQLTypeInfo.is_string (ti : SQLTypeInfo) : Bool :=
  ti.type = .kCHAR || ti.type = .kVARCHAR || ti.type = .kTEXT

/-- Modelled from the spec: the descriptor's `is_integer` classification
predicate (`kTINYINT`, `kSMALLINT`, `kINT`, `kBIGINT`). -/
def SQLTypeInfo.is_integer (ti : SQLTypeInfo) : Bool :=
  ti.type = .kTINYINT || ti.type = .kSMALLINT || ti.type = .kINT ||
    ti.type = .kBIGINT

/-- Modelled from the spec: the descriptor's `is_time` classification
predicate (temporal types `kTIME`, `kTIMESTAMP`, `kDATE`). -/
def SQLTypeInfo.is_time (ti : SQLTypeInfo) : Bool :=
  ti.type = .kTIME || ti.type = .kTIMESTAMP || ti.type = .kDATE

/-- Modelled from the spec: the descriptor's `is_decimal` classification
predicate (`kDECIMAL`, `kNUMERIC`). -/
def SQLTypeInfo.is_decimal (ti : SQLTypeInfo) : Bool :=
  ti.type = .kDECIMAL || ti.type = .kNUMERIC

/-- Modelled from the spec: the descriptor's `is_fp` classification
predicate (`kFLOAT`, `kDOUBLE`). -/
def SQLTypeInfo.is_fp (ti : SQLTypeInfo) : Bool :=
  ti.type = .kFLOAT || ti.type = .kDOUBLE

/-- The integer-width tags at which `inline_int_null_value<T>` is
instantiated inside `InlineNullValues.h`. -/
inductive CIntTy where
  | int8
  | int16
  | int32
  | int64
  | uint8
  | uint16
  deriving DecidableEq, Repr

/-- Modelled from the spec: the engine's `inline_int_null_value<T>` table
(declared outside `src/`): for a signed width the minimum representable
value, for the unsigned 8/16-bit dictionary-code widths the maximum
representable value. -/
def inline_int_null_value : CIntTy → Int
  | .int8 => -(2 ^ 7)
  | .int16 => -(2 ^ 15)
  | .int32 => -(2 ^ 31)
  | .int64 => -(2 ^ 63)
  | .uint8 => 2 ^ 8 - 1
  | .uint16 => 2 ^ 16 - 1

/-- The outcome of a call into `InlineNullValues.h`: a returned value, a
fatal `CHECK`/`abort` halt, or C++ undefined behaviour (an out-of-range
shift amount). -/
inductive CRes (α : Type) where
  | ok (v : α)
  | fatal
  | ub
  deriving DecidableEq, Repr

/-- Wrap an integer into the 64-bit two's-complement range
`[-2^63, 2^63)`. -/
def toInt64 (n : Int) : Int :=
  (n + 2 ^ 63) % 2 ^ 64 - 2 ^ 63

/-- The C++ computation `1L << s` on a 64-bit `long`: defined (with
two's-complement wrap for `s = 63`) when `0 ≤ s < 64`, undefined behaviour
otherwise. -/
def shl64 (s : Int) : CRes Int :=
  if 0 ≤ s ∧ s < 64 then .ok (toInt64 (2 ^ s.toNat)) else .ub

/-- The `switch (type)` body of `inline_int_null_val`: maps the (possibly
string-overridden) logical type to an `inline_int_null_value`
instantiation, with `abort()` on the `default:` branch. -/
def null_val_switch : SQLTypes → CRes Int
  | .kBOOLEAN => .ok (inline_int_null_value .int8)
  | .kTINYINT => .ok (inline_int_null_value .int8)
  | .kSMALLINT => .ok (inline_int_null_value .int16)
  | .kINT => .ok (inline_int_null_value .int32)
  | .kBIGINT => .ok (inline_int_null_value .int64)
  | .kTIMESTAMP => .ok (inline_int_null_value .int64)
  | .kTIME => .ok (inline_int_null_value .int64)
  | .kDATE => .ok (inline_int_null_value .int64)
  | .kINTERVAL_DAY_TIME => .ok (inline_int_null_value .int64)
  | .kINTERVAL_YEAR_MONTH => .ok (inline_int_null_value .int64)
  | .kDECIMAL => .ok (inline_int_null_value .int64)
  | .kNUMERIC => .ok (inline_int_null_value .int64)
  | _ => .fatal

/-- Embedding of `inline_int_null_val` (the spec's LogicalNullValue): a
string descriptor must be dictionary-compressed with logical size 4 and is
then treated as `kINT`; a non-string descriptor must have compression
`kENCODING_NONE`; then the type switch decides the sentinel. -/
def inline_int_null_val (ti : SQLTypeInfo) : CRes Int :=
  if ti.is_string then
    if ti.compression = .kENCODING_DICT then
      if ti.logical_size = 4 then null_val_switch .kINT else .fatal
    else .fatal
  else
    if ti.compression = .kENCODING_NONE then null_val_switch ti.type
    else .fatal

/-- Embedding of `inline_fixed_encoding_null_val` (the spec's
EncodedNullValue): dispatches on the compression scheme; `kENCODING_NONE`
delegates to `inline_int_null_val`, `kENCODING_DATE_IN_DAYS` and
`kENCODING_DICT` switch on the compression parameter resp. storage size,
and the residual case requires `kENCODING_FIXED` with an
integer/temporal/decimal type and a compression parameter divisible by 8,
returning `-(1L << (comp_param - 1))` in wrapped 64-bit arithmetic. -/
def inline_fixed_encoding_null_val (ti : SQLTypeInfo) : CRes Int :=
  if ti.compression = .kENCODING_NONE then
    inline_int_null_val ti
  else if ti.compression = .kENCODING_DATE_IN_DAYS then
    if ti.comp_param = 0 ∨ ti.comp_param = 32 then
      .ok (inline_int_null_value .int32)
    else if ti.comp_param = 16 then
      .ok (inline_int_null_value .int16)
    else .fatal
  else if ti.compression = .kENCODING_DICT then
    if ti.is_string then
      if ti.size = 1 then .ok (inline_int_null_value .uint8)
      else if ti.size = 2 then .ok (inline_int_null_value .uint16)
      else if ti.size = 4 then .ok (inline_int_null_value .int32)
      else .fatal
    else .fatal
  else if ti.compression = .kENCODING_FIXED then
    if ti.is_integer || ti.is_time || ti.is_decimal then
      if ti.comp_param.tmod 8 = 0 then
        match shl64 (ti.comp_param - 1) with
        | .ok v => .ok (toInt64 (-v))
        | .fatal => .fatal
        | .ub => .ub
      else .fatal
    else .fatal
  else .fatal

/-- Modelled from the spec: the process-wide fixed floating-point NULL
constants `NULL_FLOAT` and `NULL_DOUBLE` (defined outside `src/`).  Their
bit patterns are irrelevant to the claims; they are represented abstractly
as two distinct fixed tags. -/
inductive FPNullConst where
  | NULL_FLOAT
  | NULL_DOUBLE
  deriving DecidableEq, Repr

/-- Embedding of the specialization `inline_fp_null_value<float>`: the
fixed single-precision NULL constant. -/
def inline_fp_null_value_float : FPNullConst := .NULL_FLOAT

/-- Embedding of the specialization `inline_fp_null_value<double>`: the
fixed double-precision NULL constant. -/
def inline_fp_null_value_double : FPNullConst := .NULL_DOUBLE

/-- Embedding of `inline_fp_null_val` (the spec's FloatingNullValue):
`CHECK(ti.is_fp())`, then a switch on the logical type with `abort()` as
the default branch. -/
def inline_fp_null_val (ti : SQLTypeInfo) : CRes FPNullConst :=
  if ti.is_fp then
    match ti.type with
    | .kFLOAT => .ok inline_fp_null_value_float
    | .kDOUBLE => .ok inline_fp_null_value_double
    | _ => .fatal
  else .fatal

/-- C6: for every descriptor whose compression scheme is none,
`inline_fixed_encoding_null_val` (EncodedNullValue) returns exactly the
same result as `inline_int_null_val` (LogicalNullValue) on that
descriptor: the encoded entry point delegates entirely to the logical
mapping. -/
theorem encoding_none_delegates_to_logical (ti : SQLTypeInfo)
    (h : ti.compression = EncodingType.kENCODING_NONE) :
    inline_fixed_encoding_null_val ti = inline_int_null_val ti := by
  simp [inline_fixed_encoding_null_val, h]

/-- Witness for C6 at the concrete descriptor of end-to-end scenario A. -/
theorem encoding_none_delegates_to_logical_witness :
    inline_fixed_encoding_null_val
        ⟨.kINT, .kENCODING_NONE, 0, 4, 4⟩ =
      inline_int_null_val ⟨.kINT, .kENCODING_NONE, 0, 4, 4⟩ :=
  encoding_none_delegates_to_logical ⟨.kINT, .kENCODING_NONE, 0, 4, 4⟩ rfl

/-- C4: for every date-narrowed-to-days descriptor,
`inline_fixed_encoding_null_val` returns the 32-bit sentinel `-2^31` when
the compression parameter is 0 or 32 (so 0 and 32 yield identical
results), the 16-bit sentinel `-32768` when it is 16, and aborts for every
other parameter. -/
theorem date_in_days_sentinels (ti : SQLTypeInfo)
    (h : ti.compression = EncodingType.kENCODING_DATE_IN_DAYS) :
    ((ti.comp_param = 0 ∨ ti.comp_param = 32) →
      inline_fixed_encoding_null_val ti = .ok (-(2 ^ 31))) ∧
    (ti.comp_param = 16 →
      inline_fixed_encoding_null_val ti = .ok (-(2 ^ 15))) ∧
    (ti.comp_param ≠ 0 → ti.comp_param ≠ 32 → ti.comp_param ≠ 16 →
      inline_fixed_encoding_null_val ti = .fatal) := by
  refine ⟨fun hp => ?_, fun hp => ?_, fun h0 h32 h16 => ?_⟩
  · rcases hp with hp | hp <;>
      simp [inline_fixed_encoding_null_val, h, hp, inline_int_null_value]
  · simp [inline_fixed_encoding_null_val, h, hp, inline_int_null_value]
  · simp [inline_fixed_encoding_null_val, h, h0, h32, h16]

/-- Witness for C4: end-to-end scenario C, a date descriptor narrowed to
16-bit days yields the sentinel `-32768`. -/
theorem date_in_days_sentinels_witness :
    inline_fixed_encoding_null_val
        ⟨.kDATE, .kENCODING_DATE_IN_DAYS, 16, 2, 8⟩ = .ok (-(2 ^ 15)) :=
  (date_in_days_sentinels ⟨.kDATE, .kENCODING_DATE_IN_DAYS, 16, 2, 8⟩
    rfl).2.1 rfl

/-- C1: for every dictionary-compressed descriptor, a non-string type is a
fatal contract violation, and for string types the sentinel is determined
by the physical storage size: 1 byte yields 255 (`2^8 - 1`), 2 bytes
yields 65535 (`2^16 - 1`), 4 bytes yields the signed int32 minimum
`-2^31`, and any other size aborts. -/
theorem dict_compression_sentinels (ti : SQLTypeInfo)
    (h : ti.compression = EncodingType.kENCODING_DICT) :
    (ti.is_string = false → inline_fixed_encoding_null_val ti = .fatal) ∧
    (ti.is_string = true →
      (ti.size = 1 → inline_fixed_encoding_null_val ti = .ok (2 ^ 8 - 1)) ∧
      (ti.size = 2 → inline_fixed_encoding_null_val ti = .ok (2 ^ 16 - 1)) ∧
      (ti.size = 4 →
        inline_fixed_encoding_null_val ti = .ok (-(2 ^ 31))) ∧
      (ti.size ≠ 1 → ti.size ≠ 2 → ti.size ≠ 4 →
        inline_fixed_encoding_null_val ti = .fatal)) := by
  constructor
  · intro hs
    simp [inline_fixed_encoding_null_val, h, hs]
  · intro hs
    refine ⟨fun h1 => ?_, fun h2 => ?_, fun h4 => ?_, fun n1 n2 n4 => ?_⟩ <;>
      simp_all [inline_fixed_encoding_null_val, h, inline_int_null_value]

/-- Witness for C1: end-to-end scenario B, a dictionary-encoded string of
storage size 1 yields 255. -/
theorem dict_compression_sentinels_witness :
    inline_fixed_encoding_null_val
        ⟨.kTEXT, .kENCODING_DICT, 0, 1, 4⟩ = .ok (2 ^ 8 - 1) :=
  ((dict_compression_sentinels ⟨.kTEXT, .kENCODING_DICT, 0, 1, 4⟩
    rfl).2 rfl).1 rfl

/-- C10: for every dictionary-compressed string descriptor with physical
storage size 4 and logical size 4, the encoded path and the logical path
agree: both `inline_fixed_encoding_null_val` and `inline_int_null_val`
return the signed int32 minimum `-2^31`. -/
theorem dict_size4_paths_agree (ti : SQLTypeInfo)
    (hs : ti.is_string = true)
    (hc : ti.compression = EncodingType.kENCODING_DICT)
    (hsz : ti.size = 4) (hl : ti.logical_size = 4) :
    inline_fixed_encoding_null_val ti = .ok (-(2 ^ 31)) ∧
    inline_int_null_val ti = .ok (-(2 ^ 31)) := by
  constructor
  · simp [inline_fixed_encoding_null_val, hc, hs, hsz, inline_int_null_value]
  · simp [inline_int_null_val, hc, hs, hl, null_val_switch,
      inline_int_null_value]

/-- Witness for C10 at a concrete dictionary-encoded text descriptor of
physical and logical size 4. -/
theorem dict_size4_paths_agree_witness :
    inline_fixed_encoding_null_val
        ⟨.kTEXT, .kENCODING_DICT, 0, 4, 4⟩ = .ok (-(2 ^ 31)) ∧
    inline_int_null_val ⟨.kTEXT, .kENCODING_DICT, 0, 4, 4⟩ =
      .ok (-(2 ^ 31)) :=
  dict_size4_paths_agree ⟨.kTEXT, .kENCODING_DICT, 0, 4, 4⟩ rfl rfl rfl rfl

/-- C5: for every descriptor accepted by `inline_int_null_val`
(LogicalNullValue), the sentinel is determined by the logical type:
boolean and tiny integer give the 8-bit sentinel `-128`, small integer the
16-bit sentinel `-32768`, regular integer (and the dictionary-id string
path) the 32-bit sentinel `-2^31`, and big integer, timestamp, time, date,
the two interval types, decimal and numeric all give the 64-bit sentinel
`-2^63`; any other logical type aborts. -/
theorem logical_null_val_by_type (ti : SQLTypeInfo) :
    (∀ v, inline_int_null_val ti = .ok v →
      ((ti.type = .kBOOLEAN ∨ ti.type = .kTINYINT) → v = -(2 ^ 7)) ∧
      (ti.type = .kSMALLINT → v = -(2 ^ 15)) ∧
      ((ti.type = .kINT ∨ ti.is_string = true) → v = -(2 ^ 31)) ∧
      ((ti.type = .kBIGINT ∨ ti.type = .kTIMESTAMP ∨ ti.type = .kTIME ∨
          ti.type = .kDATE ∨ ti.type = .kINTERVAL_DAY_TIME ∨
          ti.type = .kINTERVAL_YEAR_MONTH ∨ ti.type = .kDECIMAL ∨
          ti.type = .kNUMERIC) → v = -(2 ^ 63))) ∧
    ((ti.type = .kFLOAT ∨ ti.type = .kDOUBLE ∨ ti.type = .kNULLT) →
      inline_int_null_val ti = .fatal) := by
  obtain ⟨ty, comp, p, sz, lsz⟩ := ti
  constructor
  · intro v hv
    by_cases hl : lsz = 4 <;>
      cases ty <;>
        simp_all [inline_int_null_val, SQLTypeInfo.is_string,
          null_val_switch, inline_int_null_value] <;>
      split at hv <;> simp_all
  · intro hty
    rcases hty with hty | hty | hty <;> subst hty <;>
      simp [inline_int_null_val, SQLTypeInfo.is_string, null_val_switch]

/-- Witness for C5: end-to-end scenario A, an uncompressed regular integer
descriptor yields the sentinel `-2147483648`. -/
theorem logical_null_val_by_type_witness :
    inline_int_null_val ⟨.kINT, .kENCODING_NONE, 0, 4, 4⟩ =
        .ok (-(2 ^ 31)) ∧
    -(2 ^ 31 : Int) = -(2 ^ 31 : Int) :=
  ⟨by decide,
    ((logical_null_val_by_type ⟨.kINT, .kENCODING_NONE, 0, 4, 4⟩).1
        (-(2 ^ 31)) (by decide)).2.2.1 (Or.inl rfl) ▸ rfl⟩

/-- C7: `inline_int_null_val` (LogicalNullValue) enforces its
preconditions by aborting: a string descriptor whose compression is not
dictionary, or whose logical size is not 4, is fatal, while a string
descriptor with dictionary compression and logical size 4 is treated as a
32-bit integer sentinel; a non-string descriptor with a compression other
than none is fatal. -/
theorem logical_null_val_preconditions (ti : SQLTypeInfo) :
    (ti.is_string = true →
      (ti.compression ≠ EncodingType.kENCODING_DICT →
        inline_int_null_val ti = .fatal) ∧
      (ti.logical_size ≠ 4 → inline_int_null_val ti = .fatal) ∧
      (ti.compression = EncodingType.kENCODING_DICT →
        ti.logical_size = 4 → inline_int_null_val ti = .ok (-(2 ^ 31)))) ∧
    (ti.is_string = false →
      ti.compression ≠ EncodingType.kENCODING_NONE →
      inline_int_null_val ti = .fatal) := by
  constructor
  · intro hs
    refine ⟨fun hc => ?_, fun hl => ?_, fun hc hl => ?_⟩
    · simp [inline_int_null_val, hs, hc]
    · by_cases hc : ti.compression = EncodingType.kENCODING_DICT <;>
        simp [inline_int_null_val, hs, hc, hl]
    · simp [inline_int_null_val, hs, hc, hl, null_val_switch,
        inline_int_null_value]
  · intro hs hc
    simp [inline_int_null_val, hs, hc]

/-- Witness for C7: a dictionary-encoded text descriptor with logical size
4 yields the dictionary-id null code `-2^31`, and the same descriptor with
fixed compression instead is fatal. -/
theorem logical_null_val_preconditions_witness :
    inline_int_null_val ⟨.kTEXT, .kENCODING_DICT, 0, 4, 4⟩ =
        .ok (-(2 ^ 31)) ∧
    inline_int_null_val ⟨.kTEXT, .kENCODING_FIXED, 8, 4, 4⟩ = .fatal :=
  ⟨((logical_null_val_preconditions
        ⟨.kTEXT, .kENCODING_DICT, 0, 4, 4⟩).1 rfl).2.2 rfl rfl,
    ((logical_null_val_preconditions
        ⟨.kTEXT, .kENCODING_FIXED, 8, 4, 4⟩).1 rfl).1 (by decide)⟩

/-- C8: `inline_fp_null_val` (FloatingNullValue) aborts unless the
logical type is floating point; for `kFLOAT` it returns the fixed
single-precision NULL constant and for `kDOUBLE` the fixed
double-precision NULL constant. -/
theorem fp_null_val_dispatch (ti : SQLTypeInfo) :
    (ti.is_fp = false → inline_fp_null_val ti = .fatal) ∧
    (ti.type = .kFLOAT →
      inline_fp_null_val ti = .ok inline_fp_null_value_float) ∧
    (ti.type = .kDOUBLE →
      inline_fp_null_val ti = .ok inline_fp_null_value_double) := by
  refine ⟨fun hf => ?_, fun ht => ?_, fun ht => ?_⟩
  · simp [inline_fp_null_val, hf]
  · simp [inline_fp_null_val, SQLTypeInfo.is_fp, ht]
  · simp [inline_fp_null_val, SQLTypeInfo.is_fp, ht]

/-- Witness for C8: end-to-end scenario E, a `kDOUBLE` descriptor yields
the fixed double-precision NULL constant, and a non-floating descriptor is
fatal. -/
theorem fp_null_val_dispatch_witness :
    inline_fp_null_val ⟨.kDOUBLE, .kENCODING_NONE, 0, 8, 8⟩ =
        .ok inline_fp_null_value_double ∧
    inline_fp_null_val ⟨.kINT, .kENCODING_NONE, 0, 4, 4⟩ = .fatal :=
  ⟨(fp_null_val_dispatch ⟨.kDOUBLE, .kENCODING_NONE, 0, 8, 8⟩).2.2 rfl,
    (fp_null_val_dispatch ⟨.kINT, .kENCODING_NONE, 0, 4, 4⟩).1 rfl⟩

/-- C3: for every fixed-bitwidth descriptor of integer, temporal or
decimal type whose compression parameter p lies in
{8, 16, 24, 32, 40, 48, 56, 64}, `inline_fixed_encoding_null_val` returns
exactly `-2^(p-1)` as a signed 64-bit value; for p = 64 the computation
`-(1L << 63)` wraps modulo `2^64` to `-2^63`. -/
theorem fixed_encoding_power_sentinels (ti : SQLTypeInfo)
    (h : ti.compression = EncodingType.kENCODING_FIXED)
    (ht : (ti.is_integer || ti.is_time || ti.is_decimal) = true)
    (hp : ti.comp_param = 8 ∨ ti.comp_param = 16 ∨ ti.comp_param = 24 ∨
      ti.comp_param = 32 ∨ ti.comp_param = 40 ∨ ti.comp_param = 48 ∨
      ti.comp_param = 56 ∨ ti.comp_param = 64) :
    inline_fixed_encoding_null_val ti =
      .ok (-(2 ^ (ti.comp_param - 1).toNat)) := by
  rcases hp with hp | hp | hp | hp | hp | hp | hp | hp <;>
    simp [inline_fixed_encoding_null_val, h, ht, hp, shl64, toInt64] <;>
    decide

/-- Witness for C3: end-to-end scenario D (a big integer narrowed to 24
bits yields `-8388608`) together with the p = 64 wrap-around case
(`-2^63`). -/
theorem fixed_encoding_power_sentinels_witness :
    inline_fixed_encoding_null_val
        ⟨.kBIGINT, .kENCODING_FIXED, 24, 4, 8⟩ = .ok (-8388608) ∧
    inline_fixed_encoding_null_val
        ⟨.kBIGINT, .kENCODING_FIXED, 64, 8, 8⟩ = .ok (-(2 ^ 63)) :=
  ⟨(fixed_encoding_power_sentinels ⟨.kBIGINT, .kENCODING_FIXED, 24, 4, 8⟩
      rfl (by decide) (by decide)).trans (by decide),
    (fixed_encoding_power_sentinels ⟨.kBIGINT, .kENCODING_FIXED, 64, 8, 8⟩
      rfl (by decide) (by decide)).trans (by decide)⟩

/-- C2 counterexample: a fixed-bitwidth integer descriptor with
compression parameter 0 does NOT abort — `0 tmod 8 = 0` passes the
`CHECK_EQ`, and the call reaches `1L << (0 - 1)`, a shift by a negative
amount (undefined behaviour), rather than a fatal CHECK failure. -/
theorem fixed_encoding_param_zero_no_abort :
    inline_fixed_encoding_null_val ⟨.kINT, .kENCODING_FIXED, 0, 4, 4⟩ =
        CRes.ub ∧
    inline_fixed_encoding_null_val ⟨.kINT, .kENCODING_FIXED, 0, 4, 4⟩ ≠
        CRes.fatal := by
  decide

/-- Auxiliary: the modelled C++ shift never produces a fatal halt — it
either yields a value or undefined behaviour. -/
theorem shl64_ne_fatal (s : Int) : shl64 s ≠ CRes.fatal := by
  unfold shl64
  split <;> simp

/-- Auxiliary: a non-positive shift amount is undefined behaviour. -/
theorem shl64_nonpos_ub (s : Int) (hs : s < 0) :
    shl64 s = CRes.ub := by
  unfold shl64
  rw [if_neg]
  omega

/-- C2 amended: a fixed-bitwidth descriptor aborts exactly when its type
is not integer/temporal/decimal or its compression parameter is not
divisible by 8; a parameter that is `≤ 0` but divisible by 8 (such as 0)
passes both checks and leads to a negative shift amount — undefined
behaviour, not an abort. -/
theorem fixed_encoding_abort_conditions (ti : SQLTypeInfo)
    (h : ti.compression = EncodingType.kENCODING_FIXED) :
    (inline_fixed_encoding_null_val ti = .fatal ↔
      ((ti.is_integer || ti.is_time || ti.is_decimal) = false ∨
        ti.comp_param.tmod 8 ≠ 0)) ∧
    ((ti.is_integer || ti.is_time || ti.is_decimal) = true →
      ti.comp_param.tmod 8 = 0 → ti.comp_param ≤ 0 →
      inline_fixed_encoding_null_val ti = .ub) := by
  constructor
  · constructor
    · intro hf
      by_cases ht : (ti.is_integer || ti.is_time || ti.is_decimal) = true
      · by_cases hm : ti.comp_param.tmod 8 = 0
        · exfalso
          rcases ho : shl64 (ti.comp_param - 1) with v | _ | _
          · simp [inline_fixed_encoding_null_val, h, ht, hm, ho] at hf
          · exact shl64_ne_fatal _ ho
          · simp [inline_fixed_encoding_null_val, h, ht, hm, ho] at hf
        · exact Or.inr hm
      · exact Or.inl (by simpa using ht)
    · intro hc
      rcases hc with ht | hm
      · simp [inline_fixed_encoding_null_val, h, ht]
      · by_cases ht : (ti.is_integer || ti.is_time || ti.is_decimal) = true
        · simp [inline_fixed_encoding_null_val, h, ht, hm]
        · simp_all [inline_fixed_encoding_null_val, h]
  · intro ht hm hp
    have hs : shl64 (ti.comp_param - 1) = CRes.ub :=
      shl64_nonpos_ub _ (by omega)
    simp [inline_fixed_encoding_null_val, h, ht, hm, hs]

/-- Witness for the amended C2: a parameter of 12 (not a multiple of 8)
aborts, while a parameter of -8 (a non-positive multiple of 8) gives
undefined behaviour instead of aborting. -/
theorem fixed_encoding_abort_conditions_witness :
    inline_fixed_encoding_null_val ⟨.kINT, .kENCODING_FIXED, 12, 4, 4⟩ =
        CRes.fatal ∧
    inline_fixed_encoding_null_val ⟨.kINT, .kENCODING_FIXED, -8, 4, 4⟩ =
        CRes.ub :=
  ⟨(fixed_encoding_abort_conditions ⟨.kINT, .kENCODING_FIXED, 12, 4, 4⟩
      rfl).1.mpr (Or.inr (by decide)),
    (fixed_encoding_abort_conditions ⟨.kINT, .kENCODING_FIXED, -8, 4, 4⟩
      rfl).2 (by decide) (by decide) (by decide)⟩

/-- C9: every exposed operation is a deterministic pure function of the
descriptor's observable fields: two descriptors agreeing on logical type,
compression scheme, compression parameter, storage size and logical size
receive identical results from `inline_int_null_val`,
`inline_fixed_encoding_null_val` and `inline_fp_null_val`, and the two
fixed floating-point sentinels are the same constants on every read. -/
theorem null_val_ops_deterministic (t1 t2 : SQLTypeInfo)
    (h1 : t1.type = t2.type) (h2 : t1.compression = t2.compression)
    (h3 : t1.comp_param = t2.comp_param) (h4 : t1.size = t2.size)
    (h5 : t1.logical_size = t2.logical_size) :
    inline_int_null_val t1 = inline_int_null_val t2 ∧
    inline_fixed_encoding_null_val t1 = inline_fixed_encoding_null_val t2 ∧
    inline_fp_null_val t1 = inline_fp_null_val t2 ∧
    inline_fp_null_value_float = inline_fp_null_value_float ∧
    inline_fp_null_value_double = inline_fp_null_value_double := by
  obtain ⟨ty1, c1, p1, s1, l1⟩ := t1
  obtain ⟨ty2, c2, p2, s2, l2⟩ := t2
  have e1 : ty1 = ty2 := h1
  have e2 : c1 = c2 := h2
  have e3 : p1 = p2 := h3
  have e4 : s1 = s2 := h4
  have e5 : l1 = l2 := h5
  subst e1; subst e2; subst e3; subst e4; subst e5
  exact ⟨rfl, rfl, rfl, rfl, rfl⟩

/-- Witness for C9: two structurally equal descriptors receive identical
results from all three entry points. -/
theorem null_val_ops_deterministic_witness :
    inline_int_null_val ⟨.kINT, .kENCODING_NONE, 0, 4, 4⟩ =
        inline_int_null_val ⟨.kINT, .kENCODING_NONE, 0, 4, 4⟩ ∧
    inline_fixed_encoding_null_val ⟨.kINT, .kENCODING_NONE, 0, 4, 4⟩ =
        inline_fixed_encoding_null_val ⟨.kINT, .kENCODING_NONE, 0, 4, 4⟩ ∧
    inline_fp_null_val ⟨.kINT, .kENCODING_NONE, 0, 4, 4⟩ =
        inline_fp_null_val ⟨.kINT, .kENCODING_NONE, 0, 4, 4⟩ ∧
    inline_fp_null_value_float = inline_fp_null_value_float ∧
    inline_fp_null_value_double = inline_fp_null_value_double :=
  null_val_ops_deterministic ⟨.kINT, .kENCODING_NONE, 0, 4, 4⟩
    ⟨.kINT, .kENCODING_NONE, 0, 4, 4⟩ rfl rfl rfl rfl rfl
